import Mathlib

/-!
Verification of the durable HTTP request executor from
`clint_utilities/__init__.py` (`make_durable_request`, `make_durable_post`).

The transport is modelled as a function from the attempt index (how many
transport calls have already been made in this durable-request invocation)
to the outcome of that call: a response, a recognized connectivity/timeout
failure (`requests.exceptions.ConnectionError` / `socket.timeout`), or an
unrecognized exception that the executor does not catch.

The executor is embedded as a pure function returning the terminal outcome
(which exception the Python code raises, if any) together with the trace of
observable effects: transport calls (recording whether the body-carrying
call shape was used) and sleeps (recording the duration).  Delays are
modelled as rationals.
-/

namespace ClintUtilities

/-- A transport response: `status_code` and body `text`, as read by
`make_durable_request`. -/
structure Response where
  status_code : Int
  text : String
deriving DecidableEq, Repr

/-- Outcome of one transport call (`method(url=...)` in the source). -/
inductive AttemptOutcome where
  /-- the call returned a response -/
  | resp (r : Response)
  /-- the call raised `requests.exceptions.ConnectionError` or `socket.timeout` -/
  | connectionError
  /-- the call raised some other exception, which the executor does not catch -/
  | otherException (name : String)
deriving DecidableEq, Repr

/-- The success exception classes of the source (`RequestSuccess` and its
subclass `StoreSuccess`). -/
inductive SuccessKind where
  | RequestSuccess
  | StoreSuccess
deriving DecidableEq, Repr

/-- The error exception classes of the source (`RequestError` and its
subclass `StoreError`). -/
inductive ErrorKind where
  | RequestError
  | StoreError
deriving DecidableEq, Repr

/-- How one invocation of `make_durable_request` ends. -/
inductive Terminal where
  /-- the function falls off the end and returns `None` normally -/
  | returned
  /-- `raise ValueError(msg)` from the argument validation -/
  | valueError (msg : String)
  /-- `raise success(response=r)` -/
  | raisedSuccess (kind : SuccessKind) (r : Response)
  /-- `raise error(msg)` -/
  | raisedError (kind : ErrorKind) (msg : String)
  /-- an exception the executor does not catch propagates out -/
  | uncaught (name : String)
deriving DecidableEq, Repr

/-- Observable effects of one invocation, in order: transport calls
(recording whether the `json=` body shape was used) and sleeps. -/
inductive Event where
  | call (withBody : Bool)
  | sleep (d : ℚ)
deriving DecidableEq, Repr

/-- Python truthiness of the `json` argument (`if json:`): `None` and the
empty dict are falsy, a non-empty dict is truthy. -/
def jsonTruthy : Option (List (String × String)) → Bool
  | none => false
  | some l => !l.isEmpty

/-- `success_codes = success_codes or [200, 201, 202, 204]`: Python `or`
replaces both `None` and the (falsy) empty list by the default. -/
def resolveCodes (success_codes : Option (List Int)) : List Int :=
  match success_codes with
  | none => [200, 201, 202, 204]
  | some l => if l.isEmpty then [200, 201, 202, 204] else l

/-- The message of the error raised for a non-5xx, non-success status
(source line 115-118, including its "stauts" typo). -/
def clientErrorText (r : Response) : String :=
  "Could not complete request due to stauts code " ++ toString r.status_code
    ++ ": " ++ r.text

/-- Shallow embedding of `make_durable_request`.  `method` gives the outcome
of each transport call by attempt index; `idx` is the index of the next
call (0 at the public entry point).  Returns the terminal outcome and the
event trace. -/
def make_durable_request (method : Nat → AttemptOutcome) (idx : Nat)
    (num_attempts : Int) (delay : ℚ) (success_codes : Option (List Int))
    (success : Option SuccessKind) (error : Option ErrorKind)
    (json : Option (List (String × String))) : Terminal × List Event :=
  -- Validate
  if num_attempts ≤ 0 then
    (Terminal.valueError "The value of `num_attempts` must be greater than 0.", [])
  else if delay < 0 then
    (Terminal.valueError "The value of `delay` must be greater than or equal to 0.", [])
  else
    let succ := success.getD SuccessKind.RequestSuccess
    let err := error.getD ErrorKind.RequestError
    let codes := resolveCodes success_codes
    let callEvent := Event.call (jsonTruthy json)
    -- Execute request: an unrecognized exception propagates uncaught;
    -- a connectivity/timeout failure leaves `response` as None.
    match method idx with
    | AttemptOutcome.otherException name => (Terminal.uncaught name, [callEvent])
    | outcome =>
      let response : Option Response :=
        match outcome with
        | AttemptOutcome.resp r => some r
        | _ => none
      -- Process outcomes.
      let fatal : Option Terminal :=
        match response with
        | some r =>
          if 500 ≤ r.status_code ∧ r.status_code < 600 then
            none
          else if r.status_code ∈ codes then
            some (Terminal.raisedSuccess succ r)
          else
            some (Terminal.raisedError err (clientErrorText r))
        | none => none
      match fatal with
      | some t => (t, [callEvent])
      | none =>
        if h : 1 < num_attempts then
          let rest := make_durable_request method (idx + 1) (num_attempts - 1)
            (delay * 2) (some codes) (some succ) (some err) json
          (rest.1, callEvent :: Event.sleep delay :: rest.2)
        else
          (Terminal.raisedError err "Unable to complete request.", [callEvent])
termination_by num_attempts.toNat
decreasing_by
  simp_wf
  omega

/-- A retryable outcome: a recognized connectivity/timeout failure, or a
response with a 5xx status code. -/
def retryable : AttemptOutcome → Prop
  | AttemptOutcome.resp r => 500 ≤ r.status_code ∧ r.status_code < 600
  | AttemptOutcome.connectionError => True
  | AttemptOutcome.otherException _ => False

instance : DecidablePred retryable := fun o =>
  match o with
  | AttemptOutcome.resp r =>
      inferInstanceAs (Decidable (500 ≤ r.status_code ∧ r.status_code < 600))
  | AttemptOutcome.connectionError => inferInstanceAs (Decidable True)
  | AttemptOutcome.otherException _ => inferInstanceAs (Decidable False)

/-- Is this event a transport call? -/
def isCall : Event → Bool
  | Event.call _ => true
  | Event.sleep _ => false

/-- Number of transport calls recorded in a trace. -/
def numCalls (events : List Event) : Nat := events.countP isCall

/-- The list of sleep durations recorded in a trace, in order. -/
def sleepLog (events : List Event) : List ℚ :=
  events.filterMap fun e =>
    match e with
    | Event.sleep d => some d
    | Event.call _ => none

/-- The trace of `k` retried attempts followed by one final attempt:
`k + 1` calls with `k` doubling sleeps interleaved. -/
def backoffTrace (wb : Bool) (delay : ℚ) : Nat → List Event
  | 0 => [Event.call wb]
  | k + 1 => Event.call wb :: Event.sleep delay :: backoffTrace wb (delay * 2) k

/-- Result of `make_durable_post` as seen by its caller: either the response
returned normally, or a propagated exception. -/
inductive PostResult where
  | ok (r : Response)
  | raised (t : Terminal)
deriving DecidableEq, Repr

/-- Shallow embedding of `make_durable_post`: runs the executor with success
codes `[201, 409]`, `StoreSuccess` and `StoreError`, catches `StoreSuccess`
and returns its response; every other outcome propagates. -/
def make_durable_post (method : Nat → AttemptOutcome) (url : String)
    (num_attempts : Int) (delay : ℚ) (json : List (String × String)) :
    PostResult × List Event :=
  let res := make_durable_request method 0 num_attempts delay (some [201, 409])
    (some SuccessKind.StoreSuccess) (some ErrorKind.StoreError) (some json)
  match res.1 with
  | Terminal.raisedSuccess SuccessKind.StoreSuccess r => (PostResult.ok r, res.2)
  | t => (PostResult.raised t, res.2)

/-- A transport that fails with a connectivity error on every attempt. -/
def alwaysConnError : Nat → AttemptOutcome := fun _ => AttemptOutcome.connectionError

/-- A transport that returns a 200 response on every attempt. -/
def alwaysOk : Nat → AttemptOutcome := fun _ => AttemptOutcome.resp ⟨200, "ok"⟩

/-- A transport that returns a 503 response on every attempt. -/
def always503 : Nat → AttemptOutcome := fun _ => AttemptOutcome.resp ⟨503, "oops"⟩

/-- A transport that returns a 404 response on every attempt. -/
def always404 : Nat → AttemptOutcome := fun _ => AttemptOutcome.resp ⟨404, "nope"⟩

/-- A transport that returns a 409 response on every attempt. -/
def always409 : Nat → AttemptOutcome := fun _ => AttemptOutcome.resp ⟨409, "dup"⟩

/-- A transport that fails with a connectivity error on the first attempt
and raises an unrecognized exception on every later attempt. -/
def connThenBoom : Nat → AttemptOutcome := fun i =>
  if i = 0 then AttemptOutcome.connectionError
  else AttemptOutcome.otherException "ValueError"

theorem numCalls_backoffTrace (wb : Bool) :
    ∀ (k : Nat) (delay : ℚ), numCalls (backoffTrace wb delay k) = k + 1 := by
  intro k
  induction k with
  | zero => intro delay; rfl
  | succ n ih =>
    intro delay
    simp only [backoffTrace, numCalls, List.countP_cons] at *
    simp [ih, isCall]

theorem sleepLog_backoffTrace (wb : Bool) :
    ∀ (k : Nat) (delay : ℚ),
      sleepLog (backoffTrace wb delay k) =
        (List.range k).map (fun j => delay * 2 ^ j) := by
  intro k
  induction k with
  | zero => intro delay; rfl
  | succ n ih =>
    intro delay
    simp only [backoffTrace, sleepLog, List.filterMap_cons] at *
    simp only [ih]
    rw [List.range_succ_eq_map]
    simp [List.map_map, Function.comp, pow_succ]
    intro a _
    ring

theorem resolveCodes_some_resolve (sc : Option (List Int)) :
    resolveCodes (some (resolveCodes sc)) = resolveCodes sc := by
  unfold resolveCodes
  cases sc with
  | none => simp
  | some l =>
    by_cases h : l.isEmpty
    · simp [h]
    · simp [h]

/-- Branch lemma: `num_attempts ≤ 0` fails validation with no events. -/
theorem mdr_invalid_attempts (method : Nat → AttemptOutcome) (idx : Nat)
    (num_attempts : Int) (delay : ℚ) (sc : Option (List Int))
    (s : Option SuccessKind) (e : Option ErrorKind)
    (json : Option (List (String × String))) (h : num_attempts ≤ 0) :
    make_durable_request method idx num_attempts delay sc s e json =
      (Terminal.valueError "The value of `num_attempts` must be greater than 0.", []) := by
  rw [make_durable_request]
  simp [h]

/-- Branch lemma: `delay < 0` fails validation with no events. -/
theorem mdr_invalid_delay (method : Nat → AttemptOutcome) (idx : Nat)
    (num_attempts : Int) (delay : ℚ) (sc : Option (List Int))
    (s : Option SuccessKind) (e : Option ErrorKind)
    (json : Option (List (String × String)))
    (h0 : 0 < num_attempts) (h : delay < 0) :
    make_durable_request method idx num_attempts delay sc s e json =
      (Terminal.valueError "The value of `delay` must be greater than or equal to 0.", []) := by
  rw [make_durable_request, if_neg (by omega), if_pos h]

/-- Branch lemma: an unrecognized exception from the transport propagates
uncaught after a single call. -/
theorem mdr_uncaught_step (method : Nat → AttemptOutcome) (idx : Nat)
    (num_attempts : Int) (delay : ℚ) (sc : Option (List Int))
    (s : Option SuccessKind) (e : Option ErrorKind)
    (json : Option (List (String × String))) (name : String)
    (h0 : 0 < num_attempts) (hd : 0 ≤ delay)
    (hm : method idx = AttemptOutcome.otherException name) :
    make_durable_request method idx num_attempts delay sc s e json =
      (Terminal.uncaught name, [Event.call (jsonTruthy json)]) := by
  rw [make_durable_request, if_neg (by omega), if_neg (not_lt.mpr hd)]
  simp [hm]

/-- Branch lemma: a response with a non-5xx status in the success set raises
the configured success exception after a single call. -/
theorem mdr_success_step (method : Nat → AttemptOutcome) (idx : Nat)
    (num_attempts : Int) (delay : ℚ) (sc : Option (List Int))
    (s : Option SuccessKind) (e : Option ErrorKind)
    (json : Option (List (String × String))) (r : Response)
    (h0 : 0 < num_attempts) (hd : 0 ≤ delay)
    (hm : method idx = AttemptOutcome.resp r)
    (h5 : ¬(500 ≤ r.status_code ∧ r.status_code < 600))
    (hmem : r.status_code ∈ resolveCodes sc) :
    make_durable_request method idx num_attempts delay sc s e json =
      (Terminal.raisedSuccess (s.getD SuccessKind.RequestSuccess) r,
        [Event.call (jsonTruthy json)]) := by
  rw [make_durable_request, if_neg (by omega), if_neg (not_lt.mpr hd)]
  simp [hm, h5, hmem]

/-- Branch lemma: a response with a non-5xx status outside the success set
raises the configured error with status and body after a single call. -/
theorem mdr_client_error_step (method : Nat → AttemptOutcome) (idx : Nat)
    (num_attempts : Int) (delay : ℚ) (sc : Option (List Int))
    (s : Option SuccessKind) (e : Option ErrorKind)
    (json : Option (List (String × String))) (r : Response)
    (h0 : 0 < num_attempts) (hd : 0 ≤ delay)
    (hm : method idx = AttemptOutcome.resp r)
    (h5 : ¬(500 ≤ r.status_code ∧ r.status_code < 600))
    (hmem : r.status_code ∉ resolveCodes sc) :
    make_durable_request method idx num_attempts delay sc s e json =
      (Terminal.raisedError (e.getD ErrorKind.RequestError) (clientErrorText r),
        [Event.call (jsonTruthy json)]) := by
  rw [make_durable_request, if_neg (by omega), if_neg (not_lt.mpr hd)]
  simp [hm, h5, hmem]

/-- Branch lemma: a retryable outcome with remaining budget sleeps and
recurses with doubled delay and decremented budget. -/
theorem mdr_retry_step (method : Nat → AttemptOutcome) (idx : Nat)
    (num_attempts : Int) (delay : ℚ) (sc : Option (List Int))
    (s : Option SuccessKind) (e : Option ErrorKind)
    (json : Option (List (String × String)))
    (hr : retryable (method idx)) (hN : 1 < num_attempts) (hd : 0 ≤ delay) :
    make_durable_request method idx num_attempts delay sc s e json =
      ((make_durable_request method (idx + 1) (num_attempts - 1) (delay * 2)
          (some (resolveCodes sc)) (some (s.getD SuccessKind.RequestSuccess))
          (some (e.getD ErrorKind.RequestError)) json).1,
        Event.call (jsonTruthy json) :: Event.sleep delay ::
          (make_durable_request method (idx + 1) (num_attempts - 1) (delay * 2)
            (some (resolveCodes sc)) (some (s.getD SuccessKind.RequestSuccess))
            (some (e.getD ErrorKind.RequestError)) json).2) := by
  rw [make_durable_request, if_neg (by omega), if_neg (not_lt.mpr hd)]
  cases hm : method idx with
  | resp r =>
    rw [hm] at hr
    have hr5 : 500 ≤ r.status_code ∧ r.status_code < 600 := hr
    simp [hm, hr5, hN]
  | connectionError => simp [hm, hN]
  | otherException name =>
    rw [hm] at hr
    exact hr.elim

/-- Branch lemma: a retryable outcome with a budget of exactly one raises
the generic exhaustion error after a single call. -/
theorem mdr_exhaust_step (method : Nat → AttemptOutcome) (idx : Nat)
    (delay : ℚ) (sc : Option (List Int))
    (s : Option SuccessKind) (e : Option ErrorKind)
    (json : Option (List (String × String)))
    (hr : retryable (method idx)) (hd : 0 ≤ delay) :
    make_durable_request method idx 1 delay sc s e json =
      (Terminal.raisedError (e.getD ErrorKind.RequestError)
          "Unable to complete request.",
        [Event.call (jsonTruthy json)]) := by
  rw [make_durable_request, if_neg (by omega), if_neg (not_lt.mpr hd)]
  cases hm : method idx with
  | resp r =>
    rw [hm] at hr
    have hr5 : 500 ≤ r.status_code ∧ r.status_code < 600 := hr
    simp [hm, hr5]
  | connectionError => simp [hm]
  | otherException name =>
    rw [hm] at hr
    exact hr.elim

/-- With a transport that yields a retryable outcome on every attempt and a
budget of `n + 1`, the executor makes `n + 1` calls with `n` doubling
sleeps and raises the generic exhaustion error. -/
theorem mdr_exhaust (method : Nat → AttemptOutcome)
    (hret : ∀ i, retryable (method i)) :
    ∀ (n : Nat) (idx : Nat) (delay : ℚ), 0 ≤ delay →
      ∀ (sc : Option (List Int)) (s : Option SuccessKind) (e : Option ErrorKind)
        (json : Option (List (String × String))),
      make_durable_request method idx ((n + 1 : Nat) : Int) delay sc s e json =
        (Terminal.raisedError (e.getD ErrorKind.RequestError)
            "Unable to complete request.",
          backoffTrace (jsonTruthy json) delay n) := by
  intro n
  induction n with
  | zero =>
    intro idx delay hd sc s e json
    have h1 : ((0 + 1 : Nat) : Int) = 1 := by norm_num
    rw [h1, mdr_exhaust_step method idx delay sc s e json (hret idx) hd]
    rfl
  | succ n ih =>
    intro idx delay hd sc s e json
    have hN : 1 < ((n + 1 + 1 : Nat) : Int) := by push_cast; omega
    rw [mdr_retry_step method idx _ delay sc s e json (hret idx) hN hd]
    have harg : ((n + 1 + 1 : Nat) : Int) - 1 = ((n + 1 : Nat) : Int) := by
      push_cast; ring
    rw [harg, ih (idx + 1) (delay * 2) (mul_nonneg hd (by norm_num))
      (some (resolveCodes sc)) (some (s.getD SuccessKind.RequestSuccess))
      (some (e.getD ErrorKind.RequestError)) json]
    simp [backoffTrace]

/-- A first outcome that is neither retryable nor an unrecognized exception
is a response with a non-5xx status: the call terminates at once, with the
configured success or the configured error. -/
theorem mdr_nonretry_fatal (method : Nat → AttemptOutcome) (idx : Nat)
    (num_attempts : Int) (delay : ℚ) (sc : Option (List Int))
    (s : Option SuccessKind) (e : Option ErrorKind)
    (json : Option (List (String × String)))
    (h0 : 0 < num_attempts) (hd : 0 ≤ delay)
    (hr : ¬ retryable (method idx))
    (hnx : ∀ name, method idx ≠ AttemptOutcome.otherException name) :
    (∃ r, make_durable_request method idx num_attempts delay sc s e json =
      (Terminal.raisedSuccess (s.getD SuccessKind.RequestSuccess) r,
        [Event.call (jsonTruthy json)])) ∨
    (∃ r, make_durable_request method idx num_attempts delay sc s e json =
      (Terminal.raisedError (e.getD ErrorKind.RequestError) (clientErrorText r),
        [Event.call (jsonTruthy json)])) := by
  cases hm : method idx with
  | otherException name => exact absurd hm (hnx name)
  | connectionError =>
    rw [hm] at hr
    exact absurd trivial hr
  | resp r =>
    rw [hm] at hr
    have h5 : ¬(500 ≤ r.status_code ∧ r.status_code < 600) := hr
    by_cases hmem : r.status_code ∈ resolveCodes sc
    · exact Or.inl ⟨r, mdr_success_step method idx _ delay sc s e json r h0 hd hm h5 hmem⟩
    · exact Or.inr ⟨r, mdr_client_error_step method idx _ delay sc s e json r h0 hd hm h5 hmem⟩

/-- With a transport that never raises an unrecognized exception and a
positive budget, the executor always terminates by raising either the
configured success exception or the configured error exception. -/
theorem mdr_raises (method : Nat → AttemptOutcome)
    (hnx : ∀ i name, method i ≠ AttemptOutcome.otherException name) :
    ∀ (n : Nat) (idx : Nat) (delay : ℚ), 0 ≤ delay →
      ∀ (sc : Option (List Int)) (s : Option SuccessKind) (e : Option ErrorKind)
        (json : Option (List (String × String))),
      (∃ r, (make_durable_request method idx ((n + 1 : Nat) : Int) delay sc s e json).1 =
        Terminal.raisedSuccess (s.getD SuccessKind.RequestSuccess) r) ∨
      (∃ msg, (make_durable_request method idx ((n + 1 : Nat) : Int) delay sc s e json).1 =
        Terminal.raisedError (e.getD ErrorKind.RequestError) msg) := by
  intro n
  induction n with
  | zero =>
    intro idx delay hd sc s e json
    by_cases hr : retryable (method idx)
    · right
      refine ⟨"Unable to complete request.", ?_⟩
      rw [show ((0 + 1 : Nat) : Int) = 1 by norm_num,
        mdr_exhaust_step method idx delay sc s e json hr hd]
    · rcases mdr_nonretry_fatal method idx ((0 + 1 : Nat) : Int) delay sc s e json
        (by norm_num)
        hd hr (fun name => hnx idx name) with ⟨r, h⟩ | ⟨r, h⟩
      · exact Or.inl ⟨r, by rw [h]⟩
      · exact Or.inr ⟨clientErrorText r, by rw [h]⟩
  | succ n ih =>
    intro idx delay hd sc s e json
    by_cases hr : retryable (method idx)
    · have hN : 1 < ((n + 1 + 1 : Nat) : Int) := by push_cast; omega
      have harg : ((n + 1 + 1 : Nat) : Int) - 1 = ((n + 1 : Nat) : Int) := by
        push_cast; ring
      rw [mdr_retry_step method idx _ delay sc s e json hr hN hd, harg]
      rcases ih (idx + 1) (delay * 2) (mul_nonneg hd (by norm_num))
          (some (resolveCodes sc)) (some (s.getD SuccessKind.RequestSuccess))
          (some (e.getD ErrorKind.RequestError)) json with ⟨r, h⟩ | ⟨msg, h⟩
      · exact Or.inl ⟨r, by rw [h]; rfl⟩
      · exact Or.inr ⟨msg, by rw [h]; rfl⟩
    · rcases mdr_nonretry_fatal method idx ((n + 1 + 1 : Nat) : Int) delay sc s e json
        (by push_cast; omega)
        hd hr (fun name => hnx idx name) with ⟨r, h⟩ | ⟨r, h⟩
      · exact Or.inl ⟨r, by rw [h]⟩
      · exact Or.inr ⟨clientErrorText r, by rw [h]⟩

/-- The executor depends on `success_codes` only through `resolveCodes`. -/
theorem mdr_codes_congr (method : Nat → AttemptOutcome) (idx : Nat)
    (num_attempts : Int) (delay : ℚ) (sc sc2 : Option (List Int))
    (s : Option SuccessKind) (e : Option ErrorKind)
    (json : Option (List (String × String)))
    (hsc : resolveCodes sc = resolveCodes sc2) :
    make_durable_request method idx num_attempts delay sc s e json =
      make_durable_request method idx num_attempts delay sc2 s e json := by
  conv_lhs => rw [make_durable_request]
  conv_rhs => rw [make_durable_request]
  rw [hsc]

/-- Every transport call recorded in the trace uses the call shape
determined by the truthiness of `json`; the fuel `n` bounds the budget. -/
theorem mdr_call_shape_aux (method : Nat → AttemptOutcome) :
    ∀ (n : Nat) (na : Int), na ≤ (n : Int) →
      ∀ (idx : Nat) (delay : ℚ) (sc : Option (List Int)) (s : Option SuccessKind)
        (e : Option ErrorKind) (json : Option (List (String × String))) (b : Bool),
      Event.call b ∈ (make_durable_request method idx na delay sc s e json).2 →
      b = jsonTruthy json := by
  intro n
  induction n with
  | zero =>
    intro na hna idx delay sc s e json b hmem
    rw [mdr_invalid_attempts method idx na delay sc s e json (by exact_mod_cast hna)]
      at hmem
    simp at hmem
  | succ n ih =>
    intro na hna idx delay sc s e json b hmem
    rcases le_or_lt na 0 with h0 | h0
    · rw [mdr_invalid_attempts method idx na delay sc s e json h0] at hmem
      simp at hmem
    rcases lt_or_le delay 0 with hdneg | hd
    · rw [mdr_invalid_delay method idx na delay sc s e json h0 hdneg] at hmem
      simp at hmem
    by_cases hr : retryable (method idx)
    · rcases lt_or_le 1 na with hN | hN
      · rw [mdr_retry_step method idx na delay sc s e json hr hN hd] at hmem
        simp only [List.mem_cons] at hmem
        rcases hmem with hb | hb | hmem
        · exact (Event.call.injEq _ _).mp hb
        · exact absurd hb (by simp)
        · exact ih (na - 1) (by omega) (idx + 1) (delay * 2)
            (some (resolveCodes sc)) (some (s.getD SuccessKind.RequestSuccess))
            (some (e.getD ErrorKind.RequestError)) json b hmem
      · have hna1 : na = 1 := by omega
        subst hna1
        rw [mdr_exhaust_step method idx delay sc s e json hr hd] at hmem
        simp at hmem
        exact hmem
    · cases hm : method idx with
      | otherException name =>
        rw [mdr_uncaught_step method idx na delay sc s e json name h0 hd hm] at hmem
        simp at hmem
        exact hmem
      | resp r =>
        rcases mdr_nonretry_fatal method idx na delay sc s e json h0 hd hr
            (fun nm h => by rw [hm] at h; exact AttemptOutcome.noConfusion h)
          with ⟨r2, h⟩ | ⟨r2, h⟩ <;>
          · rw [h] at hmem
            simp at hmem
            exact hmem
      | connectionError =>
        rw [hm] at hr
        exact absurd trivial hr

/-- If the first `k` outcomes are retryable and the `k`-th call (0-based)
raises an unrecognized exception, the executor makes exactly `k + 1` calls
with `k` doubling sleeps and the exception propagates. -/
theorem mdr_uncaught_at (method : Nat → AttemptOutcome) (name : String) :
    ∀ (k : Nat) (idx : Nat) (N : Nat) (delay : ℚ), k < N → 0 ≤ delay →
      (∀ i, i < k → retryable (method (idx + i))) →
      method (idx + k) = AttemptOutcome.otherException name →
      ∀ (sc : Option (List Int)) (s : Option SuccessKind) (e : Option ErrorKind)
        (json : Option (List (String × String))),
      make_durable_request method idx (N : Int) delay sc s e json =
        (Terminal.uncaught name, backoffTrace (jsonTruthy json) delay k) := by
  intro k
  induction k with
  | zero =>
    intro idx N delay hk hd hpre hexc sc s e json
    rw [mdr_uncaught_step method idx (N : Int) delay sc s e json name
      (by exact_mod_cast hk) hd (by simpa using hexc)]
    rfl
  | succ k ih =>
    intro idx N delay hk hd hpre hexc sc s e json
    have hr : retryable (method idx) := by simpa using hpre 0 (by omega)
    have hN : 1 < (N : Int) := by exact_mod_cast (by omega : 1 < N)
    rw [mdr_retry_step method idx (N : Int) delay sc s e json hr hN hd]
    have harg : (N : Int) - 1 = ((N - 1 : Nat) : Int) := by omega
    have hpre2 : ∀ i, i < k → retryable (method (idx + 1 + i)) := by
      intro i hi
      have heq : idx + 1 + i = idx + (i + 1) := by omega
      rw [heq]
      exact hpre (i + 1) (by omega)
    have hexc2 : method (idx + 1 + k) = AttemptOutcome.otherException name := by
      have heq : idx + 1 + k = idx + (k + 1) := by omega
      rw [heq]
      exact hexc
    rw [harg, ih (idx + 1) (N - 1) (delay * 2) (by omega)
      (mul_nonneg hd (by norm_num)) hpre2 hexc2
      (some (resolveCodes sc)) (some (s.getD SuccessKind.RequestSuccess))
      (some (e.getD ErrorKind.RequestError)) json]
    simp [backoffTrace]

/-- Claim C1: for every positive budget `N`, nonnegative initial delay, and
transport whose every attempt is retryable (connectivity/timeout failure or
5xx response), `make_durable_request` performs exactly `N` transport calls,
sleeps exactly `N - 1` times with durations `d, 2d, 4d, …`, and raises the
configured error type with the generic message
"Unable to complete request." regardless of the last outcome. -/
theorem durable_request_exhausts_budget (method : Nat → AttemptOutcome)
    (N : Nat) (delay : ℚ) (sc : Option (List Int)) (s : Option SuccessKind)
    (e : Option ErrorKind) (json : Option (List (String × String)))
    (hN : 1 ≤ N) (hd : 0 ≤ delay) (hret : ∀ i, retryable (method i)) :
    (make_durable_request method 0 (N : Int) delay sc s e json).1 =
      Terminal.raisedError (e.getD ErrorKind.RequestError)
        "Unable to complete request." ∧
    numCalls (make_durable_request method 0 (N : Int) delay sc s e json).2 = N ∧
    sleepLog (make_durable_request method 0 (N : Int) delay sc s e json).2 =
      (List.range (N - 1)).map (fun k => delay * 2 ^ k) := by
  obtain ⟨n, rfl⟩ : ∃ n, N = n + 1 := ⟨N - 1, by omega⟩
  rw [mdr_exhaust method hret n 0 delay hd sc s e json]
  refine ⟨rfl, ?_, ?_⟩
  · simpa using numCalls_backoffTrace (jsonTruthy json) n delay
  · simpa using sleepLog_backoffTrace (jsonTruthy json) n delay

theorem durable_request_exhausts_budget_witness :
    (1 ≤ 3 ∧ (0 : ℚ) ≤ 1 ∧ (∀ i, retryable (alwaysConnError i))) ∧
    ((make_durable_request alwaysConnError 0 ((3 : Nat) : Int) 1 none none none
        none).1 =
      Terminal.raisedError ((none : Option ErrorKind).getD ErrorKind.RequestError)
        "Unable to complete request." ∧
    numCalls (make_durable_request alwaysConnError 0 ((3 : Nat) : Int) 1 none none
        none none).2 = 3 ∧
    sleepLog (make_durable_request alwaysConnError 0 ((3 : Nat) : Int) 1 none none
        none none).2 =
      (List.range (3 - 1)).map (fun k => (1 : ℚ) * 2 ^ k)) :=
  ⟨⟨by norm_num, by norm_num, fun _ => trivial⟩,
    durable_request_exhausts_budget alwaysConnError 3 1 none none none none
      (by norm_num) (by norm_num) (fun _ => trivial)⟩

/-- Claim C2: for every positive budget, nonnegative delay, and transport
whose attempts only return responses or raise recognized connectivity
failures, `make_durable_request` never returns a value normally: it ends by
raising either the configured success type carrying a response or the
configured error type. -/
theorem durable_request_always_raises (method : Nat → AttemptOutcome)
    (N : Nat) (delay : ℚ) (sc : Option (List Int)) (s : Option SuccessKind)
    (e : Option ErrorKind) (json : Option (List (String × String)))
    (hN : 1 ≤ N) (hd : 0 ≤ delay)
    (hnx : ∀ i name, method i ≠ AttemptOutcome.otherException name) :
    (make_durable_request method 0 (N : Int) delay sc s e json).1 ≠
      Terminal.returned ∧
    ((∃ r, (make_durable_request method 0 (N : Int) delay sc s e json).1 =
        Terminal.raisedSuccess (s.getD SuccessKind.RequestSuccess) r) ∨
      (∃ msg, (make_durable_request method 0 (N : Int) delay sc s e json).1 =
        Terminal.raisedError (e.getD ErrorKind.RequestError) msg)) := by
  obtain ⟨n, rfl⟩ : ∃ n, N = n + 1 := ⟨N - 1, by omega⟩
  have h := mdr_raises method hnx n 0 delay hd sc s e json
  refine ⟨?_, h⟩
  rcases h with ⟨r, h⟩ | ⟨msg, h⟩ <;> rw [h] <;> simp

theorem durable_request_always_raises_witness :
    (1 ≤ 2 ∧ (0 : ℚ) ≤ 1 ∧
      (∀ i name, alwaysOk i ≠ AttemptOutcome.otherException name)) ∧
    ((make_durable_request alwaysOk 0 ((2 : Nat) : Int) 1 none none none none).1 ≠
      Terminal.returned ∧
    ((∃ r, (make_durable_request alwaysOk 0 ((2 : Nat) : Int) 1 none none none
          none).1 =
        Terminal.raisedSuccess
          ((none : Option SuccessKind).getD SuccessKind.RequestSuccess) r) ∨
      (∃ msg, (make_durable_request alwaysOk 0 ((2 : Nat) : Int) 1 none none none
          none).1 =
        Terminal.raisedError
          ((none : Option ErrorKind).getD ErrorKind.RequestError) msg))) :=
  ⟨⟨by norm_num, by norm_num, fun _ _ h => nomatch h⟩,
    durable_request_always_raises alwaysOk 2 1 none none none none
      (by norm_num) (by norm_num) (fun _ _ h => nomatch h)⟩

/-- Claim C6: a call with `num_attempts ≤ 0` or `delay < 0` fails
immediately with a `ValueError` and an empty event trace: no transport call
and no sleep occurs. -/
theorem durable_request_invalid_config (method : Nat → AttemptOutcome)
    (num_attempts : Int) (delay : ℚ) (sc : Option (List Int))
    (s : Option SuccessKind) (e : Option ErrorKind)
    (json : Option (List (String × String)))
    (h : num_attempts ≤ 0 ∨ delay < 0) :
    (∃ msg, (make_durable_request method 0 num_attempts delay sc s e json).1 =
      Terminal.valueError msg) ∧
    (make_durable_request method 0 num_attempts delay sc s e json).2 = [] := by
  rcases le_or_lt num_attempts 0 with h0 | h0
  · rw [mdr_invalid_attempts method 0 num_attempts delay sc s e json h0]
    exact ⟨⟨_, rfl⟩, rfl⟩
  · have hdelay : delay < 0 := by
      rcases h with h | h
      · omega
      · exact h
    rw [mdr_invalid_delay method 0 num_attempts delay sc s e json h0 hdelay]
    exact ⟨⟨_, rfl⟩, rfl⟩

theorem durable_request_invalid_config_witness :
    ((0 : Int) ≤ 0 ∨ (1 : ℚ) < 0) ∧
    ((∃ msg, (make_durable_request alwaysOk 0 0 1 none none none none).1 =
      Terminal.valueError msg) ∧
    (make_durable_request alwaysOk 0 0 1 none none none none).2 = []) :=
  ⟨Or.inl le_rfl,
    durable_request_invalid_config alwaysOk 0 1 none none none none
      (Or.inl le_rfl)⟩

/-- Claim C10: supplying `success_codes = []` behaves exactly as supplying
the default success set `[200, 201, 202, 204]`: the empty list is falsy in
Python, so `success_codes or [200, 201, 202, 204]` replaces it by the
default. -/
theorem durable_request_empty_success_codes (method : Nat → AttemptOutcome)
    (idx : Nat) (num_attempts : Int) (delay : ℚ) (s : Option SuccessKind)
    (e : Option ErrorKind) (json : Option (List (String × String))) :
    make_durable_request method idx num_attempts delay (some []) s e json =
      make_durable_request method idx num_attempts delay
        (some [200, 201, 202, 204]) s e json :=
  mdr_codes_congr method idx num_attempts delay (some [])
    (some [200, 201, 202, 204]) s e json (by rfl)

/-- Claim C3 counterexample: with success set `[503]` and a transport whose
first call returns a 503 response, the status code is in the configured
success set, yet the call does not terminate on the first attempt with
success: two transport calls and one sleep occur and the call ends with the
generic exhaustion error. -/
theorem durable_request_success_set_first_attempt_cex :
    (503 : Int) ∈ resolveCodes (some [503]) ∧
    make_durable_request always503 0 2 1 (some [503]) none none none =
      (Terminal.raisedError ErrorKind.RequestError "Unable to complete request.",
        [Event.call false, Event.sleep 1, Event.call false]) := by
  constructor
  · decide
  · have h := mdr_exhaust always503 (fun _ => ⟨by norm_num, by norm_num⟩) 1 0 1
      (by norm_num) (some [503]) none none none
    rw [show ((1 + 1 : Nat) : Int) = 2 from by norm_num] at h
    rw [h]
    rfl

/-- Claim C3 (amended): for every positive budget and nonnegative delay, if
the transport returns on the first call a response whose status code is in
the configured success set and not in `[500, 600)`, the call terminates on
that first attempt with success carrying that response: one transport call,
no sleep. -/
theorem durable_request_success_first_attempt (method : Nat → AttemptOutcome)
    (num_attempts : Int) (delay : ℚ) (sc : Option (List Int))
    (s : Option SuccessKind) (e : Option ErrorKind)
    (json : Option (List (String × String))) (r : Response)
    (hN : 1 ≤ num_attempts) (hd : 0 ≤ delay)
    (hm : method 0 = AttemptOutcome.resp r)
    (h5 : ¬(500 ≤ r.status_code ∧ r.status_code < 600))
    (hmem : r.status_code ∈ resolveCodes sc) :
    make_durable_request method 0 num_attempts delay sc s e json =
      (Terminal.raisedSuccess (s.getD SuccessKind.RequestSuccess) r,
        [Event.call (jsonTruthy json)]) :=
  mdr_success_step method 0 num_attempts delay sc s e json r (by omega) hd hm
    h5 hmem

theorem durable_request_success_first_attempt_witness :
    ((1 : Int) ≤ 5 ∧ (0 : ℚ) ≤ 1 ∧ alwaysOk 0 = AttemptOutcome.resp ⟨200, "ok"⟩ ∧
      ¬(500 ≤ (Response.mk 200 "ok").status_code ∧
        (Response.mk 200 "ok").status_code < 600) ∧
      (Response.mk 200 "ok").status_code ∈ resolveCodes none) ∧
    make_durable_request alwaysOk 0 5 1 none none none none =
      (Terminal.raisedSuccess
          ((none : Option SuccessKind).getD SuccessKind.RequestSuccess)
          ⟨200, "ok"⟩,
        [Event.call (jsonTruthy none)]) :=
  ⟨⟨by norm_num, by norm_num, rfl, by decide, by decide⟩,
    durable_request_success_first_attempt alwaysOk 5 1 none none none none
      ⟨200, "ok"⟩ (by norm_num) (by norm_num) rfl (by decide) (by decide)⟩

/-- Claim C4: for every positive budget and nonnegative delay, a first
response whose status code is neither in `[500, 600)` nor in the configured
success set terminates the call fatally after exactly one attempt — no
retry, no sleep — raising the configured error type whose message carries
the status code and body. -/
theorem durable_request_client_error_fatal (method : Nat → AttemptOutcome)
    (num_attempts : Int) (delay : ℚ) (sc : Option (List Int))
    (s : Option SuccessKind) (e : Option ErrorKind)
    (json : Option (List (String × String))) (r : Response)
    (hN : 1 ≤ num_attempts) (hd : 0 ≤ delay)
    (hm : method 0 = AttemptOutcome.resp r)
    (h5 : ¬(500 ≤ r.status_code ∧ r.status_code < 600))
    (hmem : r.status_code ∉ resolveCodes sc) :
    make_durable_request method 0 num_attempts delay sc s e json =
      (Terminal.raisedError (e.getD ErrorKind.RequestError) (clientErrorText r),
        [Event.call (jsonTruthy json)]) :=
  mdr_client_error_step method 0 num_attempts delay sc s e json r (by omega)
    hd hm h5 hmem

theorem durable_request_client_error_fatal_witness :
    ((1 : Int) ≤ 3 ∧ (0 : ℚ) ≤ 1 ∧
      always404 0 = AttemptOutcome.resp ⟨404, "nope"⟩ ∧
      ¬(500 ≤ (Response.mk 404 "nope").status_code ∧
        (Response.mk 404 "nope").status_code < 600) ∧
      (Response.mk 404 "nope").status_code ∉ resolveCodes none) ∧
    make_durable_request always404 0 3 1 none none none none =
      (Terminal.raisedError
          ((none : Option ErrorKind).getD ErrorKind.RequestError)
          (clientErrorText ⟨404, "nope"⟩),
        [Event.call (jsonTruthy none)]) :=
  ⟨⟨by norm_num, by norm_num, rfl, by decide, by decide⟩,
    durable_request_client_error_fatal always404 3 1 none none none none
      ⟨404, "nope"⟩ (by norm_num) (by norm_num) rfl (by decide) (by decide)⟩

/-- Claim C5: `make_durable_post` configures success codes `[201, 409]`;
with a positive budget and nonnegative delay, if the transport returns a
409 (or 201) response on the first call, the call terminates successfully
on the first attempt — one transport call, no sleep — and
`make_durable_post` returns that response directly to the caller. -/
theorem durable_post_returns_response (method : Nat → AttemptOutcome)
    (url : String) (num_attempts : Int) (delay : ℚ)
    (json : List (String × String)) (r : Response)
    (hN : 1 ≤ num_attempts) (hd : 0 ≤ delay)
    (hm : method 0 = AttemptOutcome.resp r)
    (hcode : r.status_code = 409 ∨ r.status_code = 201) :
    make_durable_post method url num_attempts delay json =
      (PostResult.ok r, [Event.call (jsonTruthy (some json))]) := by
  have h5 : ¬(500 ≤ r.status_code ∧ r.status_code < 600) := by
    rcases hcode with h | h <;> rw [h] <;> norm_num
  have hmem : r.status_code ∈ resolveCodes (some [201, 409]) := by
    rcases hcode with h | h <;> rw [h] <;> decide
  simp only [make_durable_post]
  rw [mdr_success_step method 0 num_attempts delay (some [201, 409])
    (some SuccessKind.StoreSuccess) (some ErrorKind.StoreError) (some json) r
    (by omega) hd hm h5 hmem]
  rfl

theorem durable_post_returns_response_witness :
    ((1 : Int) ≤ 3 ∧ (0 : ℚ) ≤ 1 ∧
      always409 0 = AttemptOutcome.resp ⟨409, "dup"⟩ ∧
      ((Response.mk 409 "dup").status_code = 409 ∨
        (Response.mk 409 "dup").status_code = 201)) ∧
    make_durable_post always409 "http://example.com/resource" 3 1 [("a", "b")] =
      (PostResult.ok ⟨409, "dup"⟩,
        [Event.call (jsonTruthy (some [("a", "b")]))]) :=
  ⟨⟨by norm_num, by norm_num, rfl, by decide⟩,
    durable_post_returns_response always409 "http://example.com/resource" 3 1
      [("a", "b")] ⟨409, "dup"⟩ (by norm_num) (by norm_num) rfl (by decide)⟩

/-- Claim C7 counterexample: a body payload that is provided but empty is
dropped — `if json:` tests truthiness, not presence — so the bodyless call
shape is used even though a body was supplied. -/
theorem durable_request_body_shape_cex :
    jsonTruthy (some []) = false ∧
    make_durable_request alwaysOk 0 1 0 none none none (some []) =
      (Terminal.raisedSuccess SuccessKind.RequestSuccess ⟨200, "ok"⟩,
        [Event.call false]) := by
  constructor
  · rfl
  · rw [mdr_success_step alwaysOk 0 1 0 none none none (some []) ⟨200, "ok"⟩
      (by norm_num) le_rfl rfl (by decide) (by decide)]
    rfl

/-- Claim C7 (amended): on every attempt the transport is invoked with the
body-carrying call shape exactly when the supplied body is truthy (present
and non-empty): every call event of any trace records
`jsonTruthy json`, so a truthy body is never dropped, no body is passed
when none is supplied, and an empty supplied body is treated as absent. -/
theorem durable_request_call_shape (method : Nat → AttemptOutcome)
    (num_attempts : Int) (delay : ℚ) (sc : Option (List Int))
    (s : Option SuccessKind) (e : Option ErrorKind)
    (json : Option (List (String × String))) (b : Bool)
    (hmem : Event.call b ∈
      (make_durable_request method 0 num_attempts delay sc s e json).2) :
    b = jsonTruthy json :=
  mdr_call_shape_aux method num_attempts.toNat num_attempts
    (Int.self_le_toNat num_attempts) 0 delay sc s e json b hmem

theorem durable_request_call_shape_witness :
    Event.call true ∈
      (make_durable_request alwaysOk 0 1 0 none none none
        (some [("a", "b")])).2 ∧
    true = jsonTruthy (some [("a", "b")]) := by
  have h := mdr_success_step alwaysOk 0 1 0 none none none
    (some [("a", "b")]) ⟨200, "ok"⟩ (by norm_num) le_rfl rfl (by decide)
    (by decide)
  refine ⟨?_, ?_⟩
  · rw [h]
    simp [jsonTruthy]
  · exact durable_request_call_shape alwaysOk 1 0 none none none
      (some [("a", "b")]) true (by rw [h]; simp [jsonTruthy])

/-- Claim C8: if the first `k` outcomes are retryable and the transport
raises an unrecognized exception on attempt `k`, that exception propagates
uncaught: the call ends with it immediately, after exactly `k + 1` calls
and only the `k` backoff sleeps that preceded the exception — no further
sleep, no further attempt. -/
theorem durable_request_uncaught_exception_propagates
    (method : Nat → AttemptOutcome) (name : String) (k N : Nat) (delay : ℚ)
    (sc : Option (List Int)) (s : Option SuccessKind) (e : Option ErrorKind)
    (json : Option (List (String × String)))
    (hk : k < N) (hd : 0 ≤ delay)
    (hpre : ∀ i, i < k → retryable (method i))
    (hexc : method k = AttemptOutcome.otherException name) :
    (make_durable_request method 0 (N : Int) delay sc s e json).1 =
      Terminal.uncaught name ∧
    numCalls (make_durable_request method 0 (N : Int) delay sc s e json).2 =
      k + 1 ∧
    sleepLog (make_durable_request method 0 (N : Int) delay sc s e json).2 =
      (List.range k).map (fun j => delay * 2 ^ j) := by
  rw [mdr_uncaught_at method name k 0 N delay hk hd
    (fun i hi => by simpa using hpre i hi) (by simpa using hexc) sc s e json]
  exact ⟨rfl, numCalls_backoffTrace (jsonTruthy json) k delay,
    sleepLog_backoffTrace (jsonTruthy json) k delay⟩

theorem durable_request_uncaught_exception_propagates_witness :
    (1 < 3 ∧ (0 : ℚ) ≤ 1 ∧ (∀ i, i < 1 → retryable (connThenBoom i)) ∧
      connThenBoom 1 = AttemptOutcome.otherException "ValueError") ∧
    ((make_durable_request connThenBoom 0 ((3 : Nat) : Int) 1 none none none
        none).1 = Terminal.uncaught "ValueError" ∧
    numCalls (make_durable_request connThenBoom 0 ((3 : Nat) : Int) 1 none none
        none none).2 = 1 + 1 ∧
    sleepLog (make_durable_request connThenBoom 0 ((3 : Nat) : Int) 1 none none
        none none).2 = (List.range 1).map (fun j => (1 : ℚ) * 2 ^ j)) :=
  ⟨⟨by norm_num, by norm_num,
      fun i hi => by
        have h0 : i = 0 := by omega
        subst h0
        decide, rfl⟩,
    durable_request_uncaught_exception_propagates connThenBoom "ValueError" 1 3
      1 none none none none (by norm_num) (by norm_num)
      (fun i hi => by
        have h0 : i = 0 := by omega
        subst h0
        decide) rfl⟩

/-- Claim C9: a 5xx status code is classified as a retryable server error
even when it is in the configured success set, because the 5xx range check
precedes the success-set membership check: a transport that always returns
such a response never terminates the call successfully — the full budget is
consumed and the call ends with the generic exhaustion error. -/
theorem durable_request_5xx_in_success_set_never_succeeds
    (method : Nat → AttemptOutcome) (r : Response) (N : Nat) (delay : ℚ)
    (sc : Option (List Int)) (s : Option SuccessKind) (e : Option ErrorKind)
    (json : Option (List (String × String)))
    (hresp : ∀ i, method i = AttemptOutcome.resp r)
    (h500 : 500 ≤ r.status_code) (h600 : r.status_code < 600)
    (hmem : r.status_code ∈ resolveCodes sc)
    (hN : 1 ≤ N) (hd : 0 ≤ delay) :
    (make_durable_request method 0 (N : Int) delay sc s e json).1 =
      Terminal.raisedError (e.getD ErrorKind.RequestError)
        "Unable to complete request." ∧
    numCalls (make_durable_request method 0 (N : Int) delay sc s e json).2 = N := by
  obtain ⟨n, rfl⟩ : ∃ n, N = n + 1 := ⟨N - 1, by omega⟩
  rw [mdr_exhaust method
    (fun i => by rw [hresp i]; exact ⟨h500, h600⟩) n 0 delay hd sc s e json]
  exact ⟨rfl, by simpa using numCalls_backoffTrace (jsonTruthy json) n delay⟩

theorem durable_request_5xx_in_success_set_never_succeeds_witness :
    ((∀ i, always503 i = AttemptOutcome.resp ⟨503, "oops"⟩) ∧
      500 ≤ (Response.mk 503 "oops").status_code ∧
      (Response.mk 503 "oops").status_code < 600 ∧
      (Response.mk 503 "oops").status_code ∈ resolveCodes (some [503]) ∧
      1 ≤ 2 ∧ (0 : ℚ) ≤ 1) ∧
    ((make_durable_request always503 0 ((2 : Nat) : Int) 1 (some [503]) none none
        none).1 =
      Terminal.raisedError ((none : Option ErrorKind).getD ErrorKind.RequestError)
        "Unable to complete request." ∧
    numCalls (make_durable_request always503 0 ((2 : Nat) : Int) 1 (some [503])
        none none none).2 = 2) :=
  ⟨⟨fun _ => rfl, by norm_num, by norm_num, by decide, by norm_num, by norm_num⟩,
    durable_request_5xx_in_success_set_never_succeeds always503 ⟨503, "oops"⟩ 2 1
      (some [503]) none none none (fun _ => rfl) (by norm_num) (by norm_num)
      (by decide) (by norm_num) (by norm_num)⟩

end ClintUtilities
